import Mathlib

/-!
Verification development for the `ccglibcloud.ec2spot` driver
(`src/ccglibcloud/ec2spot.py`): a shallow embedding of its data model,
request builder, response parsers and cancel operation, with theorems
about the behaviour of those definitions.

Python conventions used by the embedding:
* a Python value that may be `None` becomes an `Option`;
* a raised exception becomes an `Except PyErr` result; `PyErr` names the
  exception class the source raises (`KeyError` from a failed dict lookup,
  `IndexError` from `[0]` on an empty list, `ValueError` and
  `AttributeError` from explicit `raise` statements);
* a Python dict of request parameters becomes an association list with
  distinct keys, written in insertion order; assignment overwrites in
  place or appends, `del` removes;
* the one place the source iterates a dict while mutating it
  (`_get_block_device_mapping_params`, lines 287-289) has no defined
  CPython 2 semantics; the definition here embeds the intended reading —
  iteration over the keys held at loop entry, i.e. what
  `for key in params.keys()` would do — and its doc comment records the
  divergence from what the interpreter actually runs.
-/

/-- Exception classes raised by the driver code. -/
inductive PyErr where
  | keyError : PyErr
  | indexError : PyErr
  | valueError : String → PyErr
  | attributeError : String → PyErr
  deriving DecidableEq, Repr

/-- `SpotRequestState`: the five standard states for a spot request
(`ec2spot.py` lines 26-40). -/
inductive SpotRequestState where
  | OPEN : SpotRequestState
  | CLOSED : SpotRequestState
  | FAILED : SpotRequestState
  | CANCELLED : SpotRequestState
  | ACTIVE : SpotRequestState
  deriving DecidableEq, Repr

/-- `EC2SpotNodeDriver.SPOT_REQUEST_STATE_MAP` (lines 75-81): the dict from
wire state tokens to `SpotRequestState` values, as an association list in
source order. -/
def SPOT_REQUEST_STATE_MAP : List (String × SpotRequestState) :=
  [("open", SpotRequestState.OPEN),
   ("closed", SpotRequestState.CLOSED),
   ("failed", SpotRequestState.FAILED),
   ("cancelled", SpotRequestState.CANCELLED),
   ("active", SpotRequestState.ACTIVE)]

/-- Indexing `SPOT_REQUEST_STATE_MAP[token]`: `some` on a hit, `none` where
Python raises `KeyError`. -/
def spotStateLookup (token : String) : Option SpotRequestState :=
  SPOT_REQUEST_STATE_MAP.lookup token

/-- The `launchSpecification` sub-element of a spot request response
element, abstracted to what the shared collaborator routines extract from
it (`_get_extra_dict`, `_to_device_mappings`, `_get_security_groups` live
in the external libcloud base driver). -/
structure LaunchSpecElem where
  nodeAttrs : List (String × String)
  deviceMappings : List String
  securityGroups : List String
  deriving DecidableEq, Repr

/-- One `spotInstanceRequestSet/item` response element, abstracted to the
results of the `findtext`/`findall` calls `_to_spot_request` performs on
it: each field is the text of the named child (`none` when the child is
missing, where `findtext` returns Python `None`), and
`launchSpecifications` is the list `findall` returns for the
`launchSpecification` xpath. -/
structure SpotElement where
  instanceId : Option String
  spotInstanceRequestId : Option String
  spotPrice : Option String
  state : Option String
  statusCode : Option String
  statusMessage : Option String
  availabilityZoneGroup : Option String
  launchSpecifications : List LaunchSpecElem
  deriving DecidableEq, Repr

/-- Modelled from the spec: the shared extra-attribute extraction contract
of the external collaborator (`EC2NodeDriver._get_extra_dict` with
`RESOURCE_EXTRA_ATTRIBUTES_MAP['node']`, not part of this repository)
reads the node-level attribute bag out of the launch specification. -/
def _get_extra_dict (ls : LaunchSpecElem) : List (String × String) :=
  ls.nodeAttrs

/-- Modelled from the spec: the shared block-device-mapping sub-parser of
the external collaborator (`EC2NodeDriver._to_device_mappings`). -/
def _to_device_mappings (ls : LaunchSpecElem) : List String :=
  ls.deviceMappings

/-- Modelled from the spec: the shared security-group sub-parser of the
external collaborator (`EC2NodeDriver._get_security_groups`). -/
def _get_security_groups (ls : LaunchSpecElem) : List String :=
  ls.securityGroups

/-- The extra attribute bag attached to a parsed spot request: the generic
node attributes plus the two always-added entries (`ec2spot.py`
lines 273-279). -/
structure ExtraBag where
  attrs : List (String × String)
  block_device_mapping : List String
  groups : List String
  deriving DecidableEq, Repr

/-- `EC2SpotRequest` (lines 43-63): the record a parsed response element
becomes. `driver` holds the identifier of the owning connection driver. -/
structure EC2SpotRequest where
  id : Option String
  instance_id : Option String
  spot_price : Option String
  state : SpotRequestState
  status : Option String
  message : Option String
  availability_zone_group : Option String
  driver : String
  extra : ExtraBag
  deriving DecidableEq, Repr

/-- A request parameter value: the params dict holds strings everywhere
except `LaunchSpecification.EbsOptimized`, which receives the boolean
verbatim. -/
inductive ParamValue where
  | str : String → ParamValue
  | bool : Bool → ParamValue
  deriving DecidableEq, Repr

/-- The request parameter dict. -/
abbrev Params := List (String × ParamValue)

/-- Dict assignment `d[k] = v`: overwrite the existing entry in place, or
append a new one. -/
def dictSet (d : Params) (k : String) (v : ParamValue) : Params :=
  match d with
  | [] => [(k, v)]
  | (k', v') :: rest =>
      if k' = k then (k', v) :: rest else (k', v') :: dictSet rest k v

/-- Dict deletion `del d[k]`. -/
def dictErase (d : Params) (k : String) : Params :=
  d.filter (fun p => p.1 ≠ k)

/-- Dict lookup `d[k]` / `k in d`. -/
def dictFind (d : Params) (k : String) : Option ParamValue :=
  d.lookup k

/-- `d.update(other)`: assign every entry of `other` into `d`, in order. -/
def dictUpdate (d other : Params) : Params :=
  other.foldl (fun acc p => dictSet acc p.1 p.2) d

/-- The ambient driver/session state `create_node` consults: the active
region, the connection's driver identifier, and the external collaborator
operations it calls (key-pair resolution, base64 encoding, and the base
class block-device-mapping parameter builder). -/
structure DriverCtx where
  region_name : String
  connectionDriver : String
  getAndCheckAuthPubkey : String → String
  findOrImportKeypairName : String → String
  b64encode : String → String
  superBlockDeviceParams : List (List (String × String)) → Params

/-- `EC2SpotNodeDriver._to_spot_request` (lines 247-283): parse one
response element into an `EC2SpotRequest`. The state token is pushed
through `SPOT_REQUEST_STATE_MAP` (a missing or unrecognized token raises
`KeyError`), and `findall('launchSpecification')[0]` raises `IndexError`
when no launch specification is present. -/
def _to_spot_request (ctx : DriverCtx) (element : SpotElement) :
    Except PyErr EC2SpotRequest :=
  let instance_id := element.instanceId
  let spot_instance_request_id := element.spotInstanceRequestId
  let spot_price := element.spotPrice
  match element.state with
  | none => Except.error PyErr.keyError
  | some token =>
    match spotStateLookup token with
    | none => Except.error PyErr.keyError
    | some st =>
      match element.launchSpecifications with
      | [] => Except.error PyErr.indexError
      | ls :: _ =>
        Except.ok
          { id := spot_instance_request_id
            instance_id := instance_id
            spot_price := spot_price
            state := st
            status := element.statusCode
            message := element.statusMessage
            availability_zone_group := element.availabilityZoneGroup
            driver := ctx.connectionDriver
            extra :=
              { attrs := _get_extra_dict ls
                block_device_mapping := _to_device_mappings ls
                groups := _get_security_groups ls } }

/-- `EC2SpotNodeDriver._to_spot_requests` (lines 242-245): the list
comprehension `[self._to_spot_request(el) for el in object.findall(...)]`;
the first element whose parse raises aborts the whole comprehension. -/
def _to_spot_requests (ctx : DriverCtx) :
    List SpotElement → Except PyErr (List EC2SpotRequest)
  | [] => Except.ok []
  | el :: rest => do
    let r ← _to_spot_request ctx el
    let rs ← _to_spot_requests ctx rest
    Except.ok (r :: rs)

/-- `EC2SpotNodeDriver.ex_cancel_spot_instance_request` (lines 197-212),
from the response onward: `findall(xpath='spotInstanceRequestSet/item/state')`
yields the list of state elements; `[0]` raises `IndexError` on an empty
list, the `.text` of the first (`none` for an empty element) is looked up
in `SPOT_REQUEST_STATE_MAP` (`KeyError` on a miss), and the result is
compared against `CANCELLED`. -/
def ex_cancel_spot_instance_request (stateTexts : List (Option String)) :
    Except PyErr Bool :=
  match stateTexts with
  | [] => Except.error PyErr.indexError
  | text :: _ =>
    match text with
    | none => Except.error PyErr.keyError
    | some token =>
      match spotStateLookup token with
      | none => Except.error PyErr.keyError
      | some st => Except.ok (decide (st = SpotRequestState.CANCELLED))

/-- A Python value that may legally be passed for a security-group option:
`None`, a single name string, or a list/tuple of name strings. The outer
`Option` on the kwarg models key presence, so `some SGValue.pynone` is the
key passed explicitly as `None`. -/
inductive SGValue where
  | pynone : SGValue
  | str : String → SGValue
  | list : List String → SGValue
  | tuple : List String → SGValue
  deriving DecidableEq, Repr

/-- Python truthiness of a security-group value. -/
def SGValue.truthy : SGValue → Bool
  | SGValue.pynone => false
  | SGValue.str s => !(s = "")
  | SGValue.list l => !l.isEmpty
  | SGValue.tuple l => !l.isEmpty

/-- Python `a or b`. -/
def pyOr (a b : SGValue) : SGValue :=
  if a.truthy then a else b

/-- The `isinstance(security_groups, (tuple, list))` normalization (lines
139-140): a bare value is wrapped into a one-element list. Only reached on
truthy values, so the `pynone` case is dead. -/
def SGValue.asGroups : SGValue → List String
  | SGValue.pynone => []
  | SGValue.str s => [s]
  | SGValue.list l => l
  | SGValue.tuple l => l

/-- A Python value passed for `ex_iamprofile`: a string, or anything that
fails the `isinstance(..., basestring)` check. -/
inductive IamValue where
  | str : String → IamValue
  | nonString : IamValue
  deriving DecidableEq, Repr

/-- An availability zone object (`ExEC2AvailabilityZone`): the fields
`create_node` reads. -/
structure AvailabilityZone where
  name : String
  region_name : String
  deriving DecidableEq, Repr

/-- A node location; `getattr(location, 'availability_zone', None)` is
modelled by the optional field. -/
structure NodeLocation where
  availability_zone : Option AvailabilityZone
  deriving DecidableEq, Repr

/-- A node image: the field `create_node` reads. -/
structure NodeImage where
  id : String
  deriving DecidableEq, Repr

/-- A node size: the field `create_node` reads. -/
structure NodeSize where
  id : String
  deriving DecidableEq, Repr

/-- A subnet: the field `create_node` reads. -/
structure EC2Subnet where
  id : String
  deriving DecidableEq, Repr

/-- Python `str(...)` on a value that is a string or `None`, as applied to
`kwargs.get('ex_spot_price')`. -/
def pyStr : Option String → String
  | none => "None"
  | some s => s

/-- The keyword arguments of `EC2SpotNodeDriver.create_node`. An `Option`
field is `some` exactly when the key is present in `kwargs`; `image` and
`size` are accessed unconditionally (`kwargs["image"]`). `auth` is the
opaque credential object, carried as its public key material. -/
structure CreateNodeKwargs where
  image : NodeImage
  size : NodeSize
  ex_spot_price : Option String
  ex_instance_count : Option String
  ex_security_groups : Option SGValue
  ex_securitygroup : Option SGValue
  location : Option NodeLocation
  auth : Option String
  ex_keyname : Option String
  ex_userdata : Option String
  ex_blockdevicemappings : Option (List (List (String × String)))
  ex_iamprofile : Option IamValue
  ex_ebs_optimized : Option Bool
  ex_subnet : Option EC2Subnet

/-- Python `s.startswith(marker)`: character-wise prefix test. -/
def pyStartswith (s marker : String) : Bool :=
  marker.data.isPrefixOf s.data

/-- The loop of lines 142-144: `params['LaunchSpecification.SecurityGroup.%d'
% (sig + 1)] = security_groups[sig]`, with 1-based indices. -/
def setSecurityGroupParams (d : Params) (groups : List String) (i : Nat) : Params :=
  match groups with
  | [] => d
  | g :: rest =>
      setSecurityGroupParams
        (dictSet d ("LaunchSpecification.SecurityGroup." ++ toString i) (ParamValue.str g))
        rest (i + 1)

/-- `EC2SpotNodeDriver._get_block_device_mapping_params` (lines 285-290):
call the base class builder, then copy each entry to the
`LaunchSpecification.`-prefixed key and delete the original. The source
performs this with `for key in params:` over the dict it is inserting
into and deleting from — behaviour CPython 2 leaves undefined: because
each body iteration adds one key and removes one, the size guard never
fires, and a freshly inserted `LaunchSpecification.K` that lands in a
hash slot after the iterator's position is itself visited, deleted and
re-prefixed to `LaunchSpecification.LaunchSpecification.K` (and a table
resize can skip entries altogether). This definition embeds the loop's
evident intent instead: iterate over a snapshot of the keys held at loop
entry, as `for key in params.keys()` would. The divergence between that
intent and the code as written is what the theorem below documents. -/
def _get_block_device_mapping_params (ctx : DriverCtx)
    (block_device_mapping : List (List (String × String))) : Params :=
  let params := ctx.superBlockDeviceParams block_device_mapping
  (params.map Prod.fst).foldl
    (fun d key =>
      match dictFind d key with
      | some v => dictErase (dictSet d ("LaunchSpecification." ++ key) v) key
      | none => d)
    params

/-- The parameter-building prefix of `EC2SpotNodeDriver.create_node`
(lines 117-187): everything before `self.connection.request`. The `print`
statement on line 127 only writes to stdout and is not modelled. -/
def create_node_params (ctx : DriverCtx) (kwargs : CreateNodeKwargs) :
    Except PyErr Params := do
  let params : Params :=
    [("Action", ParamValue.str "RequestSpotInstances"),
     ("SpotPrice", ParamValue.str (pyStr kwargs.ex_spot_price)),
     ("InstanceCount", ParamValue.str (kwargs.ex_instance_count.getD "1")),
     ("LaunchSpecification.ImageId", ParamValue.str kwargs.image.id),
     ("LaunchSpecification.InstanceType", ParamValue.str kwargs.size.id)]
  if kwargs.ex_security_groups.isSome ∧ kwargs.ex_securitygroup.isSome then
    throw (PyErr.valueError "You can only supply ex_security_groups or ex_securitygroup")
  let security_groups :=
    pyOr (kwargs.ex_security_groups.getD SGValue.pynone)
         (kwargs.ex_securitygroup.getD SGValue.pynone)
  let params :=
    if security_groups.truthy then setSecurityGroupParams params security_groups.asGroups 1
    else params
  let params ←
    match kwargs.location with
    | none => pure params
    | some loc =>
      match loc.availability_zone with
      | none => pure params
      | some az =>
        if az.region_name ≠ ctx.region_name then
          throw (PyErr.attributeError ("Invalid availability zone: " ++ az.name))
        else
          pure (dictSet params "LaunchSpecification.Placement.AvailabilityZone"
            (ParamValue.str az.name))
  if kwargs.auth.isSome ∧ kwargs.ex_keyname.isSome then
    throw (PyErr.attributeError "Cannot specify auth and ex_keyname together")
  let params :=
    match kwargs.auth with
    | none => params
    | some a =>
        dictSet params "LaunchSpecification.KeyName"
          (ParamValue.str (ctx.findOrImportKeypairName (ctx.getAndCheckAuthPubkey a)))
  let params :=
    match kwargs.ex_keyname with
    | none => params
    | some kn => dictSet params "LaunchSpecification.KeyName" (ParamValue.str kn)
  let params :=
    match kwargs.ex_userdata with
    | none => params
    | some ud =>
        dictSet params "LaunchSpecification.UserData" (ParamValue.str (ctx.b64encode ud))
  let params :=
    match kwargs.ex_blockdevicemappings with
    | none => params
    | some bdms => dictUpdate params (_get_block_device_mapping_params ctx bdms)
  let params ←
    match kwargs.ex_iamprofile with
    | none => pure params
    | some (IamValue.nonString) => throw (PyErr.attributeError "ex_iamprofile not string")
    | some (IamValue.str s) =>
      if pyStartswith s "arn:aws:iam:" then
        pure (dictSet params "LaunchSpecification.IamInstanceProfile.Arn" (ParamValue.str s))
      else
        pure (dictSet params "LaunchSpecification.IamInstanceProfile.Name" (ParamValue.str s))
  let params :=
    match kwargs.ex_ebs_optimized with
    | none => params
    | some b => dictSet params "LaunchSpecification.EbsOptimized" (ParamValue.bool b)
  let params :=
    match kwargs.ex_subnet with
    | none => params
    | some sn => dictSet params "LaunchSpecification.SubnetId" (ParamValue.str sn.id)
  pure params

/-- The value `create_node` returns: a bare record when the parsed
response has exactly one element, otherwise the list itself. -/
inductive CreateResult where
  | single : EC2SpotRequest → CreateResult
  | many : List EC2SpotRequest → CreateResult
  deriving DecidableEq, Repr

/-- `EC2SpotNodeDriver.create_node` (lines 83-195) end to end: build the
parameters, parse the response elements, and special-case a one-element
result (lines 192-195) as a scalar. -/
def create_node (ctx : DriverCtx) (kwargs : CreateNodeKwargs)
    (response : List SpotElement) : Except PyErr CreateResult := do
  let _params ← create_node_params ctx kwargs
  let spots ← _to_spot_requests ctx response
  match spots with
  | [r] => pure (CreateResult.single r)
  | _ => pure (CreateResult.many spots)

/-! ### Helper lemmas about the dict model -/

theorem dictFind_nil (k : String) : dictFind [] k = none := rfl

theorem dictFind_cons (k k' : String) (v : ParamValue) (d : Params) :
    dictFind ((k', v) :: d) k = if k = k' then some v else dictFind d k := by
  simp only [dictFind, List.lookup]
  by_cases h : k = k'
  · simp [h]
  · have hb : (k == k') = false := beq_eq_false_iff_ne.mpr h
    simp [h, hb]

theorem spotStateLookup_mem (t : String) (s : SpotRequestState) :
    spotStateLookup t = some s ↔ (t, s) ∈ SPOT_REQUEST_STATE_MAP := by
  constructor
  · intro h
    simp only [spotStateLookup, SPOT_REQUEST_STATE_MAP, List.lookup] at h
    split at h
    · rename_i heq; simp_all [SPOT_REQUEST_STATE_MAP, eq_of_beq heq]
    repeat'
      first
      | (split at h
         · rename_i heq; simp_all [SPOT_REQUEST_STATE_MAP, eq_of_beq heq])
      | (exact absurd h (by simp))
  · intro h
    simp only [SPOT_REQUEST_STATE_MAP, List.mem_cons, List.not_mem_nil, or_false,
      Prod.mk.injEq] at h
    rcases h with ⟨h1, h2⟩ | ⟨h1, h2⟩ | ⟨h1, h2⟩ | ⟨h1, h2⟩ | ⟨h1, h2⟩ <;>
      subst h1 <;> subst h2 <;> rfl

theorem spotStateLookup_none_of_not_key (t : String)
    (h : t ∉ SPOT_REQUEST_STATE_MAP.map Prod.fst) : spotStateLookup t = none := by
  cases hl : spotStateLookup t with
  | none => rfl
  | some s =>
    exact absurd (List.mem_map_of_mem Prod.fst ((spotStateLookup_mem t s).mp hl)) h

/-! ### Claim theorems -/

/-- C1: the spot-request state mapping is a total, exact bijection between
the five wire tokens and the five enumeration values: a token translates
to `some s` exactly when the pair is in the map, each enumeration value is
reached by exactly one token (so translating a token to the enumeration
and back yields the same token), any token outside the map's keys fails
the lookup, and `_to_spot_request` turns such a failed lookup into a hard
`KeyError` rather than a default state. -/
theorem spot_state_map_bijection :
    (∀ t s, spotStateLookup t = some s ↔ (t, s) ∈ SPOT_REQUEST_STATE_MAP) ∧
    (∀ s : SpotRequestState, ∃ t, (t, s) ∈ SPOT_REQUEST_STATE_MAP ∧
        ∀ t', (t', s) ∈ SPOT_REQUEST_STATE_MAP → t' = t) ∧
    (∀ t, t ∉ SPOT_REQUEST_STATE_MAP.map Prod.fst → spotStateLookup t = none) ∧
    (∀ ctx el t, el.state = some t → spotStateLookup t = none →
        _to_spot_request ctx el = Except.error PyErr.keyError) := by
  refine ⟨spotStateLookup_mem, ?_, spotStateLookup_none_of_not_key, ?_⟩
  · intro s
    cases s with
    | OPEN => exact ⟨"open", by simp [SPOT_REQUEST_STATE_MAP],
        fun t' h => by simpa [SPOT_REQUEST_STATE_MAP] using h⟩
    | CLOSED => exact ⟨"closed", by simp [SPOT_REQUEST_STATE_MAP],
        fun t' h => by simpa [SPOT_REQUEST_STATE_MAP] using h⟩
    | FAILED => exact ⟨"failed", by simp [SPOT_REQUEST_STATE_MAP],
        fun t' h => by simpa [SPOT_REQUEST_STATE_MAP] using h⟩
    | CANCELLED => exact ⟨"cancelled", by simp [SPOT_REQUEST_STATE_MAP],
        fun t' h => by simpa [SPOT_REQUEST_STATE_MAP] using h⟩
    | ACTIVE => exact ⟨"active", by simp [SPOT_REQUEST_STATE_MAP],
        fun t' h => by simpa [SPOT_REQUEST_STATE_MAP] using h⟩
  · intro ctx el t h1 h2
    simp [_to_spot_request, h1, h2]

/-- Witness for C1 at concrete tokens: "open" round-trips through the map
and the unrecognized token "bogus" fails the lookup, making the parse of
an element carrying it a `KeyError`. -/
theorem spot_state_map_bijection_witness :
    spotStateLookup "open" = some SpotRequestState.OPEN ∧
    spotStateLookup "bogus" = none ∧
    _to_spot_request
      { region_name := "us-west-1", connectionDriver := "drv",
        getAndCheckAuthPubkey := id, findOrImportKeypairName := id,
        b64encode := id, superBlockDeviceParams := fun _ => [] }
      { instanceId := none, spotInstanceRequestId := some "sir-1",
        spotPrice := none, state := some "bogus", statusCode := none,
        statusMessage := none, availabilityZoneGroup := none,
        launchSpecifications := [] } = Except.error PyErr.keyError := by
  refine ⟨(spot_state_map_bijection.1 "open" SpotRequestState.OPEN).mpr (by decide),
    spot_state_map_bijection.2.2.1 "bogus" (by decide),
    spot_state_map_bijection.2.2.2 _ _ "bogus" rfl
      (spot_state_map_bijection.2.2.1 "bogus" (by decide))⟩

/-- C2: on a cancellation response whose first state token translates to a
valid state, `ex_cancel_spot_instance_request` returns `ok` of exactly the
comparison of that state with `CANCELLED` — `true` iff the state is
`CANCELLED`, `false` (not an error) for the other states — while a
response with no state element at all fails with `IndexError`. -/
theorem cancel_true_iff_cancelled :
    (∀ token st rest, spotStateLookup token = some st →
        ex_cancel_spot_instance_request (some token :: rest) =
          Except.ok (decide (st = SpotRequestState.CANCELLED))) ∧
    (∀ token st rest, spotStateLookup token = some st →
        (ex_cancel_spot_instance_request (some token :: rest) = Except.ok true ↔
          st = SpotRequestState.CANCELLED)) ∧
    ex_cancel_spot_instance_request [] = Except.error PyErr.indexError := by
  have hmain : ∀ token st rest, spotStateLookup token = some st →
      ex_cancel_spot_instance_request (some token :: rest) =
        Except.ok (decide (st = SpotRequestState.CANCELLED)) := by
    intro token st rest h
    simp [ex_cancel_spot_instance_request, h]
  refine ⟨hmain, ?_, rfl⟩
  intro token st rest h
  rw [hmain token st rest h]
  cases st <;> simp

/-- Witness for C2 at concrete responses: a first state of "cancelled"
yields `true`, a first state of "open" yields `false`. -/
theorem cancel_true_iff_cancelled_witness :
    ex_cancel_spot_instance_request [some "cancelled"] = Except.ok true ∧
    ex_cancel_spot_instance_request [some "open"] = Except.ok false :=
  ⟨cancel_true_iff_cancelled.1 "cancelled" SpotRequestState.CANCELLED [] (by decide),
   cancel_true_iff_cancelled.1 "open" SpotRequestState.OPEN [] (by decide)⟩

theorem to_spot_requests_ok (ctx : DriverCtx) :
    ∀ (els : List SpotElement) (rs : List EC2SpotRequest),
      _to_spot_requests ctx els = Except.ok rs →
      rs.length = els.length ∧
      ∀ i (h1 : i < els.length) (h2 : i < rs.length),
        _to_spot_request ctx (els.get ⟨i, h1⟩) = Except.ok (rs.get ⟨i, h2⟩) := by
  intro els
  induction els with
  | nil =>
    intro rs h
    simp only [_to_spot_requests] at h
    cases h
    exact ⟨rfl, fun i h1 _ => absurd h1 (by simp)⟩
  | cons e es ih =>
    intro rs h
    simp only [_to_spot_requests, bind, Except.bind] at h
    cases he : _to_spot_request ctx e with
    | error err => rw [he] at h; cases h
    | ok r =>
      rw [he] at h
      cases hes : _to_spot_requests ctx es with
      | error err => rw [hes] at h; cases h
      | ok rs' =>
        rw [hes] at h
        cases h
        obtain ⟨hlen, hnth⟩ := ih rs' hes
        refine ⟨by simpa using hlen, ?_⟩
        intro i h1 h2
        cases i with
        | zero => simpa using he
        | succ j =>
          exact hnth j (by simpa using h1) (by simpa using h2)

/-- C3: a response with `N` spot-request elements parses, when it
succeeds, to exactly `N` records, the `i`-th record coming from the `i`-th
element alone; the empty response parses to the empty sequence. -/
theorem to_spot_requests_length_and_order :
    (∀ ctx (els : List SpotElement) (rs : List EC2SpotRequest),
        _to_spot_requests ctx els = Except.ok rs →
        rs.length = els.length ∧
        ∀ i (h1 : i < els.length) (h2 : i < rs.length),
          _to_spot_request ctx (els.get ⟨i, h1⟩) = Except.ok (rs.get ⟨i, h2⟩)) ∧
    (∀ ctx, _to_spot_requests ctx [] = Except.ok []) :=
  ⟨fun ctx => to_spot_requests_ok ctx, fun _ => rfl⟩

/-- A concrete driver session used to instantiate the theorems: region
`us-west-1`, with trivial collaborator functions. -/
def sampleCtx : DriverCtx where
  region_name := "us-west-1"
  connectionDriver := "drv"
  getAndCheckAuthPubkey := id
  findOrImportKeypairName := id
  b64encode := id
  superBlockDeviceParams := fun _ => []

/-- A concrete well-formed response element in state "open". -/
def sampleElement : SpotElement where
  instanceId := none
  spotInstanceRequestId := some "sir-1"
  spotPrice := some "0.08"
  state := some "open"
  statusCode := some "pending-evaluation"
  statusMessage := none
  availabilityZoneGroup := none
  launchSpecifications := [{ nodeAttrs := [], deviceMappings := [], securityGroups := [] }]

/-- The record `sampleElement` parses to. -/
def sampleParsed : EC2SpotRequest where
  id := some "sir-1"
  instance_id := none
  spot_price := some "0.08"
  state := SpotRequestState.OPEN
  status := some "pending-evaluation"
  message := none
  availability_zone_group := none
  driver := "drv"
  extra := { attrs := [], block_device_mapping := [], groups := [] }

/-- Witness for C3 at a concrete one-element response. -/
theorem to_spot_requests_length_and_order_witness :
    ([sampleParsed].length = [sampleElement].length) ∧
    _to_spot_requests sampleCtx [] = Except.ok [] :=
  ⟨(to_spot_requests_length_and_order.1 sampleCtx [sampleElement] [sampleParsed]
      (by rfl)).1,
   to_spot_requests_length_and_order.2 sampleCtx⟩

/-- C4: supplying both `ex_security_groups` and the legacy
`ex_securitygroup` in the same `create_node` call fails with the
configuration `ValueError` naming the two options, before any request is
issued, whatever the two values are (the check is on key presence, so even
falsy values trigger it). -/
theorem create_node_params_security_group_conflict (ctx : DriverCtx)
    (kwargs : CreateNodeKwargs)
    (h1 : kwargs.ex_security_groups.isSome)
    (h2 : kwargs.ex_securitygroup.isSome) :
    create_node_params ctx kwargs =
      Except.error (PyErr.valueError
        "You can only supply ex_security_groups or ex_securitygroup") := by
  simp [create_node_params, h1, h2, throw, throwThe, MonadExcept.throw, bind, Except.bind]

/-- The base keyword arguments of a minimal create call: image `ami-X`,
size `t1.micro`, bid `0.08`, every optional argument absent. -/
def sampleKwargs : CreateNodeKwargs where
  image := { id := "ami-X" }
  size := { id := "t1.micro" }
  ex_spot_price := some "0.08"
  ex_instance_count := none
  ex_security_groups := none
  ex_securitygroup := none
  location := none
  auth := none
  ex_keyname := none
  ex_userdata := none
  ex_blockdevicemappings := none
  ex_iamprofile := none
  ex_ebs_optimized := none
  ex_subnet := none

/-- Witness for C4: both aliases supplied with falsy values (`None` and
the empty list) still fail with the configuration error. -/
theorem create_node_params_security_group_conflict_witness :
    create_node_params sampleCtx
      { sampleKwargs with
          ex_security_groups := some SGValue.pynone,
          ex_securitygroup := some (SGValue.list []) } =
      Except.error (PyErr.valueError
        "You can only supply ex_security_groups or ex_securitygroup") :=
  create_node_params_security_group_conflict sampleCtx _ rfl rfl

theorem dictFind_dictSet_self (d : Params) (k : String) (v : ParamValue) :
    dictFind (dictSet d k v) k = some v := by
  induction d with
  | nil => simp [dictSet, dictFind_cons]
  | cons p rest ih =>
    obtain ⟨k', v'⟩ := p
    by_cases h : k' = k
    · subst h; simp [dictSet, dictFind_cons]
    · simp [dictSet, h, dictFind_cons, Ne.symm h, ih]

theorem dictFind_dictSet_ne (d : Params) (k k' : String) (v : ParamValue)
    (h : k' ≠ k) : dictFind (dictSet d k v) k' = dictFind d k' := by
  induction d with
  | nil => simp [dictSet, dictFind_cons, h, dictFind_nil]
  | cons p rest ih =>
    obtain ⟨k'', v''⟩ := p
    by_cases hk : k'' = k
    · subst hk; simp [dictSet, dictFind_cons, h]
    · simp only [dictSet, if_neg hk, dictFind_cons, ih]

/-- C5: a supplied availability zone whose region differs from the active
client's region always makes `create_node` fail with the parameter error
naming the offending zone (whatever the remaining arguments, provided the
earlier security-group conflict check passes); a zone of the matching
region succeeds — stated here with the other optional arguments absent —
and sets `LaunchSpecification.Placement.AvailabilityZone` to the zone's
name. -/
theorem create_node_params_availability_zone :
    (∀ ctx kwargs loc az,
        ¬(kwargs.ex_security_groups.isSome ∧ kwargs.ex_securitygroup.isSome) →
        kwargs.location = some loc → loc.availability_zone = some az →
        az.region_name ≠ ctx.region_name →
        create_node_params ctx kwargs =
          Except.error (PyErr.attributeError
            ("Invalid availability zone: " ++ az.name))) ∧
    (∀ ctx img sz price cnt az, az.region_name = ctx.region_name →
        ∀ p, create_node_params ctx
          { sampleKwargs with
              image := img, size := sz, ex_spot_price := price,
              ex_instance_count := cnt,
              location := some { availability_zone := some az } } =
            Except.ok p →
          dictFind p "LaunchSpecification.Placement.AvailabilityZone" =
            some (ParamValue.str az.name)) ∧
    (∀ ctx img sz price cnt az, az.region_name = ctx.region_name →
        ∃ p, create_node_params ctx
          { sampleKwargs with
              image := img, size := sz, ex_spot_price := price,
              ex_instance_count := cnt,
              location := some { availability_zone := some az } } =
            Except.ok p) := by
  refine ⟨?_, ?_, ?_⟩
  · intro ctx kwargs loc az hsg hloc haz hne
    simp [create_node_params, hsg, hloc, haz, hne, bind, Except.bind, throw,
      throwThe, MonadExcept.throw, pure, Except.pure]
  · intro ctx img sz price cnt az hz p hp
    simp [create_node_params, hz, bind, Except.bind, pure, Except.pure,
      sampleKwargs, pyOr, SGValue.truthy] at hp
    subst hp
    rw [dictFind_dictSet_self]
  · intro ctx img sz price cnt az hz
    refine ⟨[("Action", ParamValue.str "RequestSpotInstances"),
      ("SpotPrice", ParamValue.str (pyStr price)),
      ("InstanceCount", ParamValue.str (cnt.getD "1")),
      ("LaunchSpecification.ImageId", ParamValue.str img.id),
      ("LaunchSpecification.InstanceType", ParamValue.str sz.id),
      ("LaunchSpecification.Placement.AvailabilityZone", ParamValue.str az.name)], ?_⟩
    simp [create_node_params, hz, bind, Except.bind, pure, Except.pure,
      sampleKwargs, pyOr, SGValue.truthy, dictSet]

/-- Witness for C5: zone `eu-west-1a` against the `us-west-1` session
fails naming the zone; zone `us-west-1a` succeeds and the resulting map
carries it as the placement parameter. -/
theorem create_node_params_availability_zone_witness :
    create_node_params sampleCtx
      { sampleKwargs with
          location := some ⟨some ⟨"eu-west-1a", "eu-west-1"⟩⟩ } =
      Except.error (PyErr.attributeError
        ("Invalid availability zone: " ++ "eu-west-1a")) ∧
    dictFind [("Action", ParamValue.str "RequestSpotInstances"),
      ("SpotPrice", ParamValue.str "0.08"),
      ("InstanceCount", ParamValue.str "1"),
      ("LaunchSpecification.ImageId", ParamValue.str "ami-X"),
      ("LaunchSpecification.InstanceType", ParamValue.str "t1.micro"),
      ("LaunchSpecification.Placement.AvailabilityZone", ParamValue.str "us-west-1a")]
      "LaunchSpecification.Placement.AvailabilityZone" =
      some (ParamValue.str "us-west-1a") := by
  constructor
  · exact create_node_params_availability_zone.1 sampleCtx
      { sampleKwargs with location := some ⟨some ⟨"eu-west-1a", "eu-west-1"⟩⟩ }
      ⟨some ⟨"eu-west-1a", "eu-west-1"⟩⟩ ⟨"eu-west-1a", "eu-west-1"⟩
      (by simp [sampleKwargs]) rfl rfl (by decide)
  · exact create_node_params_availability_zone.2.1 sampleCtx ⟨"ami-X"⟩
      ⟨"t1.micro"⟩ (some "0.08") none ⟨"us-west-1a", "us-west-1"⟩ rfl _ (by rfl)

/-- C6: an `ex_iamprofile` string starting with the ARN marker
`arn:aws:iam:` is emitted under exactly the ARN-style key, any other
string under exactly the name-style key (stated with the other optional
arguments absent), and a non-string value always fails with the
`AttributeError` `ex_iamprofile not string` whatever the remaining
arguments, provided the earlier checks pass. -/
theorem create_node_params_iamprofile :
    (∀ ctx img sz price cnt s, pyStartswith s "arn:aws:iam:" = true →
        ∃ p, create_node_params ctx
            { sampleKwargs with
                image := img, size := sz, ex_spot_price := price,
                ex_instance_count := cnt,
                ex_iamprofile := some (IamValue.str s) } =
          Except.ok p ∧
        dictFind p "LaunchSpecification.IamInstanceProfile.Arn" =
          some (ParamValue.str s) ∧
        dictFind p "LaunchSpecification.IamInstanceProfile.Name" = none) ∧
    (∀ ctx img sz price cnt s, pyStartswith s "arn:aws:iam:" = false →
        ∃ p, create_node_params ctx
            { sampleKwargs with
                image := img, size := sz, ex_spot_price := price,
                ex_instance_count := cnt,
                ex_iamprofile := some (IamValue.str s) } =
          Except.ok p ∧
        dictFind p "LaunchSpecification.IamInstanceProfile.Name" =
          some (ParamValue.str s) ∧
        dictFind p "LaunchSpecification.IamInstanceProfile.Arn" = none) ∧
    (∀ ctx kwargs,
        ¬(kwargs.ex_security_groups.isSome ∧ kwargs.ex_securitygroup.isSome) →
        (∀ loc az, kwargs.location = some loc → loc.availability_zone = some az →
          az.region_name = ctx.region_name) →
        ¬(kwargs.auth.isSome ∧ kwargs.ex_keyname.isSome) →
        kwargs.ex_iamprofile = some IamValue.nonString →
        create_node_params ctx kwargs =
          Except.error (PyErr.attributeError "ex_iamprofile not string")) := by
  refine ⟨?_, ?_, ?_⟩
  · intro ctx img sz price cnt s hs
    refine ⟨[("Action", ParamValue.str "RequestSpotInstances"),
      ("SpotPrice", ParamValue.str (pyStr price)),
      ("InstanceCount", ParamValue.str (cnt.getD "1")),
      ("LaunchSpecification.ImageId", ParamValue.str img.id),
      ("LaunchSpecification.InstanceType", ParamValue.str sz.id),
      ("LaunchSpecification.IamInstanceProfile.Arn", ParamValue.str s)], ?_, ?_, ?_⟩
    · simp [create_node_params, sampleKwargs, hs, bind, Except.bind, pure,
        Except.pure, pyOr, SGValue.truthy, dictSet]
    · simp [dictFind_cons]
    · simp [dictFind_cons, dictFind_nil]
  · intro ctx img sz price cnt s hs
    refine ⟨[("Action", ParamValue.str "RequestSpotInstances"),
      ("SpotPrice", ParamValue.str (pyStr price)),
      ("InstanceCount", ParamValue.str (cnt.getD "1")),
      ("LaunchSpecification.ImageId", ParamValue.str img.id),
      ("LaunchSpecification.InstanceType", ParamValue.str sz.id),
      ("LaunchSpecification.IamInstanceProfile.Name", ParamValue.str s)], ?_, ?_, ?_⟩
    · simp [create_node_params, sampleKwargs, hs, bind, Except.bind, pure,
        Except.pure, pyOr, SGValue.truthy, dictSet]
    · simp [dictFind_cons]
    · simp [dictFind_cons, dictFind_nil]
  · intro ctx kwargs hsg hloc hak hiam
    rcases hl : kwargs.location with _ | loc
    · simp [create_node_params, hsg, hl, hak, hiam, bind, Except.bind, pure,
        Except.pure, throw, throwThe, MonadExcept.throw]
    · rcases ha : loc.availability_zone with _ | az
      · simp [create_node_params, hsg, hl, ha, hak, hiam, bind, Except.bind,
          pure, Except.pure, throw, throwThe, MonadExcept.throw]
      · have hz := hloc loc az hl ha
        simp [create_node_params, hsg, hl, ha, hz, hak, hiam, bind, Except.bind,
          pure, Except.pure, throw, throwThe, MonadExcept.throw]

/-- Witness for C6: an ARN string and a plain name string both build
successfully, and a non-string value fails with the attribute error. -/
theorem create_node_params_iamprofile_witness :
    (create_node_params sampleCtx
      { sampleKwargs with
          image := ⟨"ami-X"⟩, size := ⟨"t1.micro"⟩,
          ex_spot_price := some "0.08", ex_instance_count := none,
          ex_iamprofile := some (IamValue.str "arn:aws:iam::123:ip/p") }).isOk
      = true ∧
    (create_node_params sampleCtx
      { sampleKwargs with
          image := ⟨"ami-X"⟩, size := ⟨"t1.micro"⟩,
          ex_spot_price := some "0.08", ex_instance_count := none,
          ex_iamprofile := some (IamValue.str "myprofile") }).isOk = true ∧
    create_node_params sampleCtx
      { sampleKwargs with ex_iamprofile := some IamValue.nonString } =
      Except.error (PyErr.attributeError "ex_iamprofile not string") := by
  refine ⟨?_, ?_, ?_⟩
  · obtain ⟨p, hp, -, -⟩ := create_node_params_iamprofile.1 sampleCtx ⟨"ami-X"⟩
      ⟨"t1.micro"⟩ (some "0.08") none "arn:aws:iam::123:ip/p" (by decide)
    simp [hp, Except.isOk, Except.toBool]
  · obtain ⟨p, hp, -, -⟩ := create_node_params_iamprofile.2.1 sampleCtx ⟨"ami-X"⟩
      ⟨"t1.micro"⟩ (some "0.08") none "myprofile" (by decide)
    simp [hp, Except.isOk, Except.toBool]
  · exact create_node_params_iamprofile.2.2 sampleCtx _ (by simp [sampleKwargs])
      (by simp [sampleKwargs]) (by simp [sampleKwargs]) rfl

theorem strAppendCancel (a b c : String) (h : a ++ b = a ++ c) : b = c := by
  apply String.ext
  have hd := congrArg String.data h
  simp only [String.data_append] at hd
  exact List.append_cancel_left hd

theorem mem_keys_of_dictFind_some (d : Params) (k : String) (v : ParamValue)
    (h : dictFind d k = some v) : k ∈ d.map Prod.fst := by
  induction d with
  | nil => simp [dictFind_nil] at h
  | cons p rest ih =>
    obtain ⟨k1, v1⟩ := p
    rw [dictFind_cons] at h
    by_cases hk : k = k1
    · simp [hk]
    · simp only [if_neg hk] at h
      simp [ih h]

theorem dictSet_append_of_not_mem (d : Params) (k : String) (v : ParamValue)
    (h : k ∉ d.map Prod.fst) : dictSet d k v = d ++ [(k, v)] := by
  induction d with
  | nil => rfl
  | cons p rest ih =>
    obtain ⟨k1, v1⟩ := p
    simp only [List.map_cons, List.mem_cons] at h
    push_neg at h
    have hne : ¬k1 = k := fun he => h.1 he.symm
    simp [dictSet, hne, ih h.2]

theorem dictErase_of_not_mem (d : Params) (k : String)
    (h : k ∉ d.map Prod.fst) : dictErase d k = d := by
  induction d with
  | nil => rfl
  | cons p rest ih =>
    obtain ⟨k1, v1⟩ := p
    simp only [List.map_cons, List.mem_cons] at h
    push_neg at h
    simp only [dictErase, List.filter_cons]
    rw [if_pos (by simpa using fun he : k1 = k => h.1 he.symm)]
    have := ih h.2
    simp only [dictErase] at this
    rw [this]

theorem bdm_loop_spec :
    ∀ (rest extra : Params),
      ((rest ++ extra).map Prod.fst).Nodup →
      (∀ k, k ∈ rest.map Prod.fst →
        ("LaunchSpecification." ++ k) ∉ (rest ++ extra).map Prod.fst) →
      (rest.map Prod.fst).foldl
        (fun d key =>
          match dictFind d key with
          | some v => dictErase (dictSet d ("LaunchSpecification." ++ key) v) key
          | none => d)
        (rest ++ extra)
      = extra ++ rest.map (fun p => ("LaunchSpecification." ++ p.1, p.2)) := by
  intro rest
  induction rest with
  | nil => intro extra h1 h2; simp
  | cons p rs ih =>
    intro extra h1 h2
    obtain ⟨k, v⟩ := p
    have hkeys1 : k ∉ (rs ++ extra).map Prod.fst ∧
        ((rs ++ extra).map Prod.fst).Nodup := by
      simpa using h1
    have hkfresh : ("LaunchSpecification." ++ k) ≠ k ∧
        ("LaunchSpecification." ++ k) ∉ (rs ++ extra).map Prod.fst := by
      have := h2 k (by simp)
      simpa using this
    have hfind : dictFind (((k, v) :: rs) ++ extra) k = some v := by
      rw [List.cons_append, dictFind_cons, if_pos rfl]
    have hset : dictSet (((k, v) :: rs) ++ extra) ("LaunchSpecification." ++ k) v
        = (((k, v) :: rs) ++ extra) ++ [("LaunchSpecification." ++ k, v)] := by
      apply dictSet_append_of_not_mem
      simpa using And.intro hkfresh.1 hkfresh.2
    have herase : dictErase ((((k, v) :: rs) ++ extra) ++
        [("LaunchSpecification." ++ k, v)]) k
        = rs ++ (extra ++ [("LaunchSpecification." ++ k, v)]) := by
      have hkrs : k ∉ rs.map Prod.fst := fun hm => hkeys1.1 (by simp [hm])
      have hkex : k ∉ extra.map Prod.fst := fun hm => hkeys1.1 (by simp [hm])
      have e1 := dictErase_of_not_mem rs k hkrs
      have e2 := dictErase_of_not_mem extra k hkex
      simp only [dictErase] at e1 e2
      simp only [dictErase, List.cons_append, List.filter_append, List.filter_cons,
        List.filter_nil]
      rw [if_neg (by simp)]
      rw [if_pos (by simpa using hkfresh.1)]
      rw [e1, e2, List.append_assoc]
    simp only [List.map_cons, List.foldl_cons, hfind, hset, herase]
    have hknotrs : k ∉ rs.map Prod.fst := by
      intro hmem
      exact hkeys1.1 (by simp [hmem])
    have h1' : ((rs ++ (extra ++ [("LaunchSpecification." ++ k, v)])).map
        Prod.fst).Nodup := by
      simp only [List.map_append, List.map_cons, List.map_nil]
      rw [← List.append_assoc, List.nodup_append_comm]
      simp only [List.singleton_append, List.nodup_cons]
      constructor
      · simpa using hkfresh.2
      · simpa using hkeys1.2
    have h2' : ∀ k', k' ∈ rs.map Prod.fst →
        ("LaunchSpecification." ++ k') ∉
          (rs ++ (extra ++ [("LaunchSpecification." ++ k, v)])).map Prod.fst := by
      intro k' hk' hmem
      have hold := h2 k' (by simp [hk'])
      have hne : k' ≠ k := fun he => hknotrs (he ▸ hk')
      have hinj : ("LaunchSpecification." ++ k') ≠ ("LaunchSpecification." ++ k) :=
        fun he => hne (strAppendCancel "LaunchSpecification." k' k he)
      simp only [List.map_append, List.map_cons, List.map_nil, List.mem_append,
        List.mem_cons, List.mem_singleton, List.not_mem_nil, or_false]
        at hmem hold
      tauto
    have := ih (extra ++ [("LaunchSpecification." ++ k, v)]) h1' h2'
    rw [this]
    simp [List.append_assoc]

theorem get_bdm_params_eq (ctx : DriverCtx) (bdms : List (List (String × String)))
    (hnd : ((ctx.superBlockDeviceParams bdms).map Prod.fst).Nodup)
    (hfresh : ∀ k ∈ (ctx.superBlockDeviceParams bdms).map Prod.fst,
        ("LaunchSpecification." ++ k) ∉
          (ctx.superBlockDeviceParams bdms).map Prod.fst) :
    _get_block_device_mapping_params ctx bdms
      = (ctx.superBlockDeviceParams bdms).map
          (fun p => ("LaunchSpecification." ++ p.1, p.2)) := by
  have h := bdm_loop_spec (ctx.superBlockDeviceParams bdms) []
    (by simpa using hnd) (by simpa using hfresh)
  simpa [_get_block_device_mapping_params] using h

theorem dictFind_prefixed_map (d : Params) (k : String) (v : ParamValue)
    (h : dictFind d k = some v) :
    dictFind (d.map (fun p => ("LaunchSpecification." ++ p.1, p.2)))
      ("LaunchSpecification." ++ k) = some v := by
  induction d with
  | nil => simp [dictFind_nil] at h
  | cons p rest ih =>
    obtain ⟨k1, v1⟩ := p
    rw [dictFind_cons] at h
    by_cases hk : k = k1
    · subst hk
      simp only [if_true, eq_self_iff_true, Option.some.injEq] at h
      simp [List.map_cons, dictFind_cons, h]
    · simp only [if_neg hk] at h
      have hne : ("LaunchSpecification." ++ k) ≠ ("LaunchSpecification." ++ k1) :=
        fun he => hk (strAppendCancel "LaunchSpecification." k k1 he)
      simp [List.map_cons, dictFind_cons, hne, ih h]

theorem dictFind_prefixed_map_none (d : Params) (k : String)
    (h : ∀ k', k' ∈ d.map Prod.fst → k ≠ "LaunchSpecification." ++ k') :
    dictFind (d.map (fun p => ("LaunchSpecification." ++ p.1, p.2))) k = none := by
  induction d with
  | nil => simp [dictFind, List.lookup]
  | cons p rest ih =>
    obtain ⟨k1, v1⟩ := p
    have h1 := h k1 (by simp)
    simp [dictFind_cons, h1, ih (fun k' hk' => h k' (by simp [hk']))]

/-- C7: the re-namespacing `_get_block_device_mapping_params` is written
to perform — every entry `K = v` of the base builder's dict (whose keys
are distinct and not already carrying the launch-specification namespace)
appears in the result as `LaunchSpecification.K = v`, and the bare key
`K` is gone. This holds of the loop's intended snapshot reading embedded
above; the source as written iterates the live dict it mutates, so under
CPython 2 the property is not guaranteed for any non-empty base mapping —
the inserted `LaunchSpecification.*` keys are generically revisited,
double-prefixed and dropped. The claim describes the intent; the code's
live iteration is the bug. -/
theorem get_block_device_mapping_params_renamespaced (ctx : DriverCtx)
    (bdms : List (List (String × String)))
    (hnd : ((ctx.superBlockDeviceParams bdms).map Prod.fst).Nodup)
    (hfresh : ∀ k ∈ (ctx.superBlockDeviceParams bdms).map Prod.fst,
        ("LaunchSpecification." ++ k) ∉
          (ctx.superBlockDeviceParams bdms).map Prod.fst) :
    ∀ k v, dictFind (ctx.superBlockDeviceParams bdms) k = some v →
      dictFind (_get_block_device_mapping_params ctx bdms)
          ("LaunchSpecification." ++ k) = some v ∧
      dictFind (_get_block_device_mapping_params ctx bdms) k = none := by
  intro k v h
  rw [get_bdm_params_eq ctx bdms hnd hfresh]
  refine ⟨dictFind_prefixed_map _ k v h, ?_⟩
  apply dictFind_prefixed_map_none
  intro k' hk' he
  have hkmem := mem_keys_of_dictFind_some _ k v h
  rw [he] at hkmem
  exact hfresh k' hk' hkmem

/-- A driver session whose base-class block-device builder returns one
concrete device-mapping parameter. -/
def bdmCtx : DriverCtx :=
  { sampleCtx with superBlockDeviceParams :=
      fun _ => [("BlockDeviceMapping.1.DeviceName", ParamValue.str "/dev/sda1")] }

/-- Witness for C7 at a concrete one-entry base mapping. -/
theorem get_block_device_mapping_params_renamespaced_witness :
    dictFind (_get_block_device_mapping_params bdmCtx [[("DeviceName", "/dev/sda1")]])
        ("LaunchSpecification." ++ "BlockDeviceMapping.1.DeviceName") =
      some (ParamValue.str "/dev/sda1") ∧
    dictFind (_get_block_device_mapping_params bdmCtx [[("DeviceName", "/dev/sda1")]])
        "BlockDeviceMapping.1.DeviceName" = none :=
  get_block_device_mapping_params_renamespaced bdmCtx [[("DeviceName", "/dev/sda1")]]
    (by decide) (by decide) "BlockDeviceMapping.1.DeviceName"
    (ParamValue.str "/dev/sda1") rfl

/-- C8: building create parameters for image `ami-X`, size `t1.micro`,
bid `0.08` with the instance count unset produces exactly the base map,
containing `InstanceCount="1"`, `SpotPrice="0.08"`,
`LaunchSpecification.ImageId="ami-X"` and
`LaunchSpecification.InstanceType="t1.micro"`. -/
theorem create_node_params_scenario :
    create_node_params sampleCtx sampleKwargs =
      Except.ok [("Action", ParamValue.str "RequestSpotInstances"),
        ("SpotPrice", ParamValue.str "0.08"),
        ("InstanceCount", ParamValue.str "1"),
        ("LaunchSpecification.ImageId", ParamValue.str "ami-X"),
        ("LaunchSpecification.InstanceType", ParamValue.str "t1.micro")] ∧
    dictFind [("Action", ParamValue.str "RequestSpotInstances"),
        ("SpotPrice", ParamValue.str "0.08"),
        ("InstanceCount", ParamValue.str "1"),
        ("LaunchSpecification.ImageId", ParamValue.str "ami-X"),
        ("LaunchSpecification.InstanceType", ParamValue.str "t1.micro")]
        "InstanceCount" = some (ParamValue.str "1") ∧
    dictFind [("Action", ParamValue.str "RequestSpotInstances"),
        ("SpotPrice", ParamValue.str "0.08"),
        ("InstanceCount", ParamValue.str "1"),
        ("LaunchSpecification.ImageId", ParamValue.str "ami-X"),
        ("LaunchSpecification.InstanceType", ParamValue.str "t1.micro")]
        "SpotPrice" = some (ParamValue.str "0.08") ∧
    dictFind [("Action", ParamValue.str "RequestSpotInstances"),
        ("SpotPrice", ParamValue.str "0.08"),
        ("InstanceCount", ParamValue.str "1"),
        ("LaunchSpecification.ImageId", ParamValue.str "ami-X"),
        ("LaunchSpecification.InstanceType", ParamValue.str "t1.micro")]
        "LaunchSpecification.ImageId" = some (ParamValue.str "ami-X") ∧
    dictFind [("Action", ParamValue.str "RequestSpotInstances"),
        ("SpotPrice", ParamValue.str "0.08"),
        ("InstanceCount", ParamValue.str "1"),
        ("LaunchSpecification.ImageId", ParamValue.str "ami-X"),
        ("LaunchSpecification.InstanceType", ParamValue.str "t1.micro")]
        "LaunchSpecification.InstanceType" = some (ParamValue.str "t1.micro") :=
  ⟨rfl, rfl, rfl, rfl, rfl⟩

/-- C9: once the parameters build and the response parses, `create_node`
returns the single record bare when the parsed list has exactly one
element, and the list itself (as `CreateResult.many`) otherwise. -/
theorem create_node_single_vs_many (ctx : DriverCtx) (kwargs : CreateNodeKwargs)
    (response : List SpotElement) (p : Params) (spots : List EC2SpotRequest)
    (hp : create_node_params ctx kwargs = Except.ok p)
    (hs : _to_spot_requests ctx response = Except.ok spots) :
    (∀ r, spots = [r] →
        create_node ctx kwargs response = Except.ok (CreateResult.single r)) ∧
    (spots.length ≠ 1 →
        create_node ctx kwargs response = Except.ok (CreateResult.many spots)) := by
  constructor
  · intro r hr
    subst hr
    simp [create_node, hp, hs, bind, Except.bind, pure, Except.pure]
  · intro hlen
    rcases spots with _ | ⟨a, _ | ⟨b, t⟩⟩
    · simp [create_node, hp, hs, bind, Except.bind, pure, Except.pure]
    · exact absurd rfl hlen
    · simp [create_node, hp, hs, bind, Except.bind, pure, Except.pure]

/-- Witness for C9: a one-element response returns the bare record, an
empty response returns the (empty) list. -/
theorem create_node_single_vs_many_witness :
    create_node sampleCtx sampleKwargs [sampleElement] =
      Except.ok (CreateResult.single sampleParsed) ∧
    create_node sampleCtx sampleKwargs [] =
      Except.ok (CreateResult.many []) := by
  constructor
  · exact (create_node_single_vs_many sampleCtx sampleKwargs [sampleElement]
      _ _ rfl rfl).1 sampleParsed rfl
  · exact (create_node_single_vs_many sampleCtx sampleKwargs []
      _ _ rfl rfl).2 (by decide)

/-- C10: a create call without `ex_spot_price` (stated with the other
optional arguments absent) does not fail — the builder emits
`SpotPrice` bound to the literal string `"None"`, the Python
stringification of the absent value, so no bid-price presence validation
happens here. -/
theorem create_node_params_spot_price_default (ctx : DriverCtx)
    (img : NodeImage) (sz : NodeSize) (cnt : Option String) :
    ∃ p, create_node_params ctx
        { sampleKwargs with
            image := img, size := sz, ex_spot_price := none,
            ex_instance_count := cnt } = Except.ok p ∧
      dictFind p "SpotPrice" = some (ParamValue.str "None") := by
  refine ⟨[("Action", ParamValue.str "RequestSpotInstances"),
    ("SpotPrice", ParamValue.str "None"),
    ("InstanceCount", ParamValue.str (cnt.getD "1")),
    ("LaunchSpecification.ImageId", ParamValue.str img.id),
    ("LaunchSpecification.InstanceType", ParamValue.str sz.id)], ?_, ?_⟩
  · simp [create_node_params, sampleKwargs, pyStr, bind, Except.bind, pure,
      Except.pure, pyOr, SGValue.truthy]
  · simp [dictFind_cons]
